import Mathlib

/-!
Verification of the TWAVoterApp offline voter store.

Shallow embedding of the repository's data layer:
* `src/src/utils/offlineDB.ts` — the Dexie-backed `ConstituencyVoterDB`
  (creating/updating hooks, `voterOperations`, `syncOperations`),
* `src/src/components/VoterList.tsx` — the filtering effect,
* `src/src/stores/appStore.ts` — the Zustand state container,
* the modular `FieldSurveyDB` variant (initialisation / recovery path).

Strings are Lean `String`s; JavaScript `Date` timestamps are modelled as
`Nat` (epoch milliseconds), with each asynchronous operation taking the
current time as an explicit parameter.  The Dexie lifecycle hooks are
modelled as written in the source: the mutations the hook performs on the
modification object take effect on the stored record.
-/

namespace TWAVoter

/-! ### JavaScript string primitives -/

/-- Lower-case a string character-by-character, as `String.prototype.toLowerCase`
does for the ASCII data appearing in this application. -/
def lowerStr (s : String) : String := ⟨s.data.map Char.toLower⟩

/-- Does the second character list start with the first one? -/
def charListStarts : List Char → List Char → Bool
  | [], _ => true
  | _ :: _, [] => false
  | p :: ps, h :: hs => p == h && charListStarts ps hs

/-- Does the character list `hay` contain `pat` as a contiguous run?
Mirrors `String.prototype.includes`. -/
def charListHas (pat : List Char) : List Char → Bool
  | [] => charListStarts pat []
  | h :: hs => charListStarts pat (h :: hs) || charListHas pat hs

/-- JavaScript `hay.includes(pat)`. -/
def strIncludes (hay pat : String) : Bool := charListHas pat.data hay.data

/-- Drop leading whitespace characters. -/
def dropLeadingWs : List Char → List Char
  | [] => []
  | c :: cs => if c.isWhitespace then dropLeadingWs cs else c :: cs

/-- JavaScript `s.trim()`: remove leading and trailing whitespace. -/
def jsTrim (s : String) : String :=
  ⟨dropLeadingWs ((dropLeadingWs s.data.reverse).reverse)⟩

/-- JavaScript `m || o` on an optional string: falls back to `o` when `m` is
`undefined` or the empty string (both falsy). -/
def jsOrStr (m : Option String) (o : String) : String :=
  match m with
  | none => o
  | some s => if s == "" then o else s

/-! ### Data model (`VoterInfo`, `src/src/utils/offlineDB.ts` lines 6–33) -/

inductive Gender where
  | male | female | other | preferNotToSay
deriving DecidableEq, Repr

inductive RegStatus where
  | registered | pending | verified | inactive
deriving DecidableEq, Repr

/-- String rendering of `registrationStatus`, as stored/compared in the UI. -/
def RegStatus.str : RegStatus → String
  | .registered => "registered"
  | .pending => "pending"
  | .verified => "verified"
  | .inactive => "inactive"

structure Address where
  street : Option String := none
  ward : String
  district : String
  constituency : String
  pincode : Option String := none
deriving DecidableEq, Repr

structure Demographics where
  age : Option Nat := none
  gender : Option Gender := none
  occupation : Option String := none
  education : Option String := none
  familySize : Option Nat := none
  income : Option String := none
deriving DecidableEq, Repr

/-- A stored voter record.  `id` is the Dexie auto-increment primary key
(always assigned for stored records). -/
structure VoterInfo where
  id : Nat
  voterId : String
  firstName : String
  lastName : String
  fullName : String
  phoneNumber : Option String := none
  email : Option String := none
  address : Address
  demographics : Demographics := {}
  registrationStatus : RegStatus
  telegramUserId : Option Nat := none
  createdAt : Nat
  updatedAt : Nat
  synced : Nat
  lastSyncedAt : Option Nat := none
deriving DecidableEq, Repr

/-- The caller-supplied part of a new record (`Partial<VoterInfo>` as passed to
`voterOperations.add`); the creating hook fills in the derived fields. -/
structure VoterInput where
  voterId : String
  firstName : String
  lastName : String
  phoneNumber : Option String := none
  email : Option String := none
  address : Address
  demographics : Demographics := {}
  registrationStatus : RegStatus
  telegramUserId : Option Nat := none
deriving DecidableEq, Repr

/-- A partial change set for `voterOperations.update` (a `Partial<VoterInfo>`):
`none` means the key is absent from the modification object. -/
structure VoterChanges where
  voterId : Option String := none
  firstName : Option String := none
  lastName : Option String := none
  fullName : Option String := none
  phoneNumber : Option (Option String) := none
  email : Option (Option String) := none
  address : Option Address := none
  demographics : Option Demographics := none
  registrationStatus : Option RegStatus := none
  telegramUserId : Option (Option Nat) := none
  createdAt : Option Nat := none
  updatedAt : Option Nat := none
  synced : Option Nat := none
  lastSyncedAt : Option (Option Nat) := none
deriving DecidableEq, Repr

/-- The per-constituency Dexie table: records in insertion order together with
the next auto-increment key (Dexie `++id` starts at 1). -/
structure VoterStore where
  nextId : Nat := 1
  records : List VoterInfo := []
deriving DecidableEq, Repr

def emptyStore : VoterStore := {}

/-! ### Dexie lifecycle hooks (`offlineDB.ts` lines 48–62)

The creating hook overwrites `fullName`, `createdAt`, `updatedAt`, `synced` on
the object being inserted; the updating hook extends the modification object
with a recomputed `fullName` (when a name field is present), a fresh
`updatedAt`, and `synced = 0`. -/

/-- Record produced by `voterInfo.hook('creating')` for input `v` inserted at
primary key `key` at time `now`. -/
def mkVoter (now key : Nat) (v : VoterInput) : VoterInfo :=
  { id := key
    voterId := v.voterId
    firstName := v.firstName
    lastName := v.lastName
    fullName := jsTrim (v.firstName ++ " " ++ v.lastName)
    phoneNumber := v.phoneNumber
    email := v.email
    address := v.address
    demographics := v.demographics
    registrationStatus := v.registrationStatus
    telegramUserId := v.telegramUserId
    createdAt := now
    updatedAt := now
    synced := 0
    lastSyncedAt := none }

/-- Apply a modification object to a stored record (Dexie key-path updates). -/
def applyChanges (ch : VoterChanges) (r : VoterInfo) : VoterInfo :=
  { r with
    voterId := ch.voterId.getD r.voterId
    firstName := ch.firstName.getD r.firstName
    lastName := ch.lastName.getD r.lastName
    fullName := ch.fullName.getD r.fullName
    phoneNumber := ch.phoneNumber.getD r.phoneNumber
    email := ch.email.getD r.email
    address := ch.address.getD r.address
    demographics := ch.demographics.getD r.demographics
    registrationStatus := ch.registrationStatus.getD r.registrationStatus
    telegramUserId := ch.telegramUserId.getD r.telegramUserId
    createdAt := ch.createdAt.getD r.createdAt
    updatedAt := ch.updatedAt.getD r.updatedAt
    synced := ch.synced.getD r.synced
    lastSyncedAt := ch.lastSyncedAt.getD r.lastSyncedAt }

/-- The `voterInfo.hook('updating')` body: given the modification object `ch`
and the existing record `old`, it sets `fullName` to the merged, trimmed name
whenever `firstName` or `lastName` is present in `ch` (merging with JavaScript
falsy-fallback), stamps `updatedAt`, and resets `synced` to 0. -/
def updatingHook (now : Nat) (old : VoterInfo) (ch : VoterChanges) : VoterChanges :=
  let ch1 :=
    if ch.firstName.isSome || ch.lastName.isSome then
      { ch with fullName := some (jsTrim
          (jsOrStr ch.firstName old.firstName ++ " " ++ jsOrStr ch.lastName old.lastName)) }
    else ch
  { ch1 with updatedAt := some now, synced := some 0 }

/-! ### Store operations (`voterOperations`, `offlineDB.ts` lines 155–208) -/

/-- Dexie `Table.add` with the creating hook applied; assigns the
auto-increment key and appends. -/
def addVoter (now : Nat) (v : VoterInput) (st : VoterStore) : VoterStore :=
  { nextId := st.nextId + 1
    records := st.records ++ [mkVoter now st.nextId v] }

/-- Dexie `Table.bulkAdd`: each element goes through the creating hook. -/
def bulkAddVoters (now : Nat) (vs : List VoterInput) (st : VoterStore) : VoterStore :=
  vs.foldl (fun acc v => addVoter now v acc) st

/-- Dexie `Table.get` by primary key. -/
def getById (id : Nat) (st : VoterStore) : Option VoterInfo :=
  (st.records.filter (fun r => r.id == id)).head?

/-- The `voterOperations.getByVoterId` query:
`where('voterId').equals(voterId).first()`.  The `voterId` index is
non-unique, and entries with equal `voterId` are ordered by primary key,
which coincides with insertion order. -/
def getByVoterId (v : String) (st : VoterStore) : Option VoterInfo :=
  (st.records.filter (fun r => r.voterId == v)).head?

/-- The `voterOperations.getByTelegramId` query. -/
def getByTelegramId (uid : Nat) (st : VoterStore) : Option VoterInfo :=
  (st.records.filter (fun r => r.telegramUserId == some uid)).head?

/-- Dexie `Table.update(id, changes)` with the updating hook applied to the
modification object; a missing key is a no-op. -/
def updateVoter (now : Nat) (id : Nat) (ch : VoterChanges) (st : VoterStore) : VoterStore :=
  { st with records := st.records.map (fun r =>
      if r.id == id then applyChanges (updatingHook now r ch) r else r) }

/-- The `voterOperations.markSynced` operation: an update whose modification
object carries the single entry setting `synced` to 1. -/
def markSynced (now : Nat) (id : Nat) (st : VoterStore) : VoterStore :=
  updateVoter now id { synced := some 1 } st

/-- The `voterOperations.getUnsynced` query:
`where('synced').equals(0).toArray()` (index order; ties by primary key,
which is insertion order here). -/
def getUnsynced (st : VoterStore) : List VoterInfo :=
  st.records.filter (fun r => r.synced == 0)

/-- Comparison used by the `createdAt` index scan: index key order with
primary-key tiebreak. -/
def leCreated (a b : VoterInfo) : Bool :=
  a.createdAt < b.createdAt || (a.createdAt == b.createdAt && a.id ≤ b.id)

/-- Insertion step of the index-order sort. -/
def insertCreated (a : VoterInfo) : List VoterInfo → List VoterInfo
  | [] => [a]
  | b :: bs => if leCreated a b then a :: b :: bs else b :: insertCreated a bs

/-- Records in `createdAt` index order (an insertion sort; the order is what
matters, and this order is total and deterministic). -/
def sortCreated : List VoterInfo → List VoterInfo
  | [] => []
  | a :: as => insertCreated a (sortCreated as)

/-- The `voterOperations.getAll` query:
`orderBy('createdAt').reverse().toArray()`. -/
def getAll (st : VoterStore) : List VoterInfo :=
  (sortCreated st.records).reverse

/-! ### Sync stub (`syncOperations.syncVoters`, `offlineDB.ts` lines 214–239)

The per-record `try`/`catch` is modelled by a failure oracle `failing` on
primary keys: a failing `markSynced` leaves the store unchanged and the loop
continues with the next record. -/

def syncVoters (online : Bool) (failing : Nat → Bool) (now : Nat)
    (st : VoterStore) : VoterStore :=
  if !online then st
  else
    (getUnsynced st).foldl
      (fun acc voter => if failing voter.id then acc else markSynced now voter.id acc)
      st

/-! ### List filtering (`VoterList.tsx` lines 51–82)

The effect starts from a copy of the cached list and applies the four
criteria one after the other; a criterion is active when its string state is
truthy, i.e. non-empty.  The free-text query is lower-cased once and matched
against lower-cased full name, first name, last name, voter ID and phone
number. -/

/-- Does a record match the (already lower-cased) free-text query? -/
def matchesQuery (q : String) (v : VoterInfo) : Bool :=
  strIncludes (lowerStr v.fullName) q ||
  strIncludes (lowerStr v.firstName) q ||
  strIncludes (lowerStr v.lastName) q ||
  strIncludes (lowerStr v.voterId) q ||
  (match v.phoneNumber with
   | some p => strIncludes (lowerStr p) q
   | none => false)

/-- The filtering effect of `VoterList`, applied to the cached list. -/
def filterVoters (searchQuery wardF districtF statusF : String)
    (voters : List VoterInfo) : List VoterInfo :=
  let f0 := voters
  let f1 := if searchQuery == "" then f0
            else f0.filter (matchesQuery (lowerStr searchQuery))
  let f2 := if wardF == "" then f1
            else f1.filter (fun v => v.address.ward == wardF)
  let f3 := if districtF == "" then f2
            else f2.filter (fun v => v.address.district == districtF)
  if statusF == "" then f3
  else f3.filter (fun v => v.registrationStatus.str == statusF)

/-- Conjunction of the active criteria, as the specification states the
filtering contract. -/
def matchesAll (searchQuery wardF districtF statusF : String) (v : VoterInfo) : Bool :=
  (searchQuery == "" || matchesQuery (lowerStr searchQuery) v) &&
  ((wardF == "" || v.address.ward == wardF) &&
   ((districtF == "" || v.address.district == districtF) &&
    (statusF == "" || v.registrationStatus.str == statusF)))

/-! ### Application state container (`appStore.ts`)

The Zustand store holds the cached list, the current-voter pointer and the
Telegram user; the store instance is threaded through so the composite
actions can be stated against the primitive operations. -/

structure AppState where
  isOnline : Bool
  user : Option Nat
  currentVoter : Option VoterInfo
  voters : List VoterInfo
  db : VoterStore
deriving DecidableEq, Repr

/-- The `loadVoters` action: replaces the cached list with `getAll`. -/
def loadVotersAction (st : AppState) : AppState :=
  { st with voters := getAll st.db }

/-- The `getCurrentVoterByTelegram` action: when a user with a truthy id is
present, point `currentVoter` at the store lookup result. -/
def getCurrentVoterAction (st : AppState) : AppState :=
  match st.user with
  | some uid => if uid != 0 then { st with currentVoter := getByTelegramId uid st.db } else st
  | none => st

/-- Does the current-voter pointer refer to the record with key `id`? -/
def currentMatches (st : AppState) (id : Nat) : Bool :=
  match st.currentVoter with
  | some cv => cv.id == id
  | none => false

/-- The `addVoter` action: delegate to the store, then reload the list. -/
def addVoterAction (now : Nat) (v : VoterInput) (st : AppState) : AppState :=
  loadVotersAction { st with db := addVoter now v st.db }

/-- The `updateVoter` action: delegate to the store, reload the list, then
refresh the current-voter pointer when it refers to the updated key. -/
def updateVoterAction (now : Nat) (id : Nat) (ch : VoterChanges) (st : AppState) : AppState :=
  let st1 := loadVotersAction { st with db := updateVoter now id ch st.db }
  if currentMatches st1 id then getCurrentVoterAction st1 else st1

/-! ### Constituency switching (`setConstituency`, `offlineDB.ts` lines 70–77)

Module-level state: the mutable `currentConstituency`, the module binding
`db` (what `voterOperations` dereference), and the `db` property that
`Object.assign(window, ...)` writes. -/

structure DBHandle where
  constituency : String
  isOpen : Bool
deriving DecidableEq, Repr

structure ModuleState where
  currentConstituency : String
  db : DBHandle
  windowDb : Option DBHandle
deriving DecidableEq, Repr

/-- The `setConstituency` function: records the new constituency id, closes
the current handle, and assigns a fresh handle for the new constituency to
the `window` object — the module binding `db` is never reassigned. -/
def setConstituency (c : String) (st : ModuleState) : ModuleState :=
  { currentConstituency := c
    db := { st.db with isOpen := false }
    windowDb := some { constituency := c, isOpen := true } }

/-- Constituency targeted by every subsequent `voterOperations` call: they
read the module binding `db`. -/
def opsTargetConstituency (st : ModuleState) : String := st.db.constituency

/-! ### Initialisation and recovery (`FieldSurveyDB` module, `initializeOfflineDB`)

The modular database variant opens the store, seeds fixture data when the
store is empty, and on an open failure runs the destructive recovery path:
delete the database, construct a fresh one, open it, and repopulate it with
the fixture data.  `addSampleData` traps its own errors.  Failures are
modelled by Boolean oracles; the function always returns a store state —
nothing is propagated to the caller. -/

/-- Fixture voters seeded by `addSampleData` (the four sample records). -/
def sampleVoterInputs (constituency : String) : List VoterInput :=
  [ { voterId := "VTR001", firstName := "Rajesh", lastName := "Kumar"
      phoneNumber := some "+91-9876543210", email := some "rajesh.kumar@email.com"
      address := { street := some "123 Main Street", ward := "Ward 15"
                   district := "Central District", constituency := constituency
                   pincode := some "110001" }
      demographics := { age := some 35, gender := some .male
                        occupation := some "Software Engineer", education := some "Graduate"
                        familySize := some 4, income := some "50000-75000" }
      registrationStatus := .verified, telegramUserId := some 123456789 },
    { voterId := "VTR002", firstName := "Priya", lastName := "Sharma"
      phoneNumber := some "+91-9876543211", email := some "priya.sharma@email.com"
      address := { street := some "456 Park Avenue", ward := "Ward 12"
                   district := "North District", constituency := constituency
                   pincode := some "110002" }
      demographics := { age := some 28, gender := some .female
                        occupation := some "Teacher", education := some "Post Graduate"
                        familySize := some 3, income := some "25000-50000" }
      registrationStatus := .verified, telegramUserId := some 987654321 },
    { voterId := "VTR003", firstName := "Mohammed", lastName := "Ali"
      phoneNumber := some "+91-9876543212"
      address := { street := some "789 Commerce Street", ward := "Ward 8"
                   district := "East District", constituency := constituency
                   pincode := some "110003" }
      demographics := { age := some 42, gender := some .male
                        occupation := some "Business Owner", education := some "Graduate"
                        familySize := some 5 }
      registrationStatus := .pending },
    { voterId := "VTR004", firstName := "Sunita", lastName := "Devi"
      phoneNumber := some "+91-9876543213"
      address := { ward := "Ward 5", district := "West District"
                   constituency := constituency }
      demographics := { age := some 55, gender := some .female
                        occupation := some "Housewife", familySize := some 6 }
      registrationStatus := .verified } ]

/-- The `addSampleData` helper: bulk-adds the fixture voters; its own
`try`/`catch` swallows a bulk-add failure, leaving the store unchanged. -/
def addSampleData (bulkAddFails : Bool) (now : Nat) (constituency : String)
    (st : VoterStore) : VoterStore :=
  if bulkAddFails then st
  else bulkAddVoters now (sampleVoterInputs constituency) st

/-- The `initializeOfflineDB` entry point of the modular database module.
On a successful open, fixture data is seeded only when the store is empty;
on an open failure the recovery path deletes the database and rebuilds a
fresh, fixture-populated store (a failure inside recovery is itself logged
and swallowed, leaving the freshly recreated empty store).  All failure
paths return a store state normally: no error escapes to the caller. -/
def initializeOfflineDB (openFails recoveryFails bulkAddFails : Bool)
    (now : Nat) (constituency : String) (st : VoterStore) : VoterStore :=
  if openFails then
    if recoveryFails then emptyStore
    else addSampleData false now constituency emptyStore
  else
    if st.records.length == 0 then addSampleData bulkAddFails now constituency st
    else st

/-! ### Specification-worded definitions

The merge the specification describes for claim C4 — literally the new
value where the key is given, otherwise the existing value — to be compared
with the falsy-fallback merge the updating hook performs. -/

/-- Modelled from the spec wording of the update merge: the new value where
given, otherwise the existing value. -/
def specMergeGiven (m : Option String) (o : String) : String := m.getD o

/-! ### Concrete example data

The records the specification's worked examples use: two voters seeded into
a store.  These mirror the example rows of the spec's testable properties
(VTR001 John Doe, Ward 1, registered; VTR002 Jane Smith, Ward 2, verified). -/

def johnInput : VoterInput :=
  { voterId := "VTR001", firstName := "John", lastName := "Doe"
    phoneNumber := some "+1234567890"
    address := { ward := "Ward 1", district := "District A", constituency := "C" }
    registrationStatus := .registered }

def janeInput : VoterInput :=
  { voterId := "VTR002", firstName := "Jane", lastName := "Smith"
    phoneNumber := some "+1234567891"
    address := { ward := "Ward 2", district := "District B", constituency := "C" }
    registrationStatus := .verified }

/-- Two-record store: John added at time 10, Jane at time 20. -/
def exampleStore : VoterStore := addVoter 20 janeInput (addVoter 10 johnInput emptyStore)

/-! ### General list lemmas -/

theorem filter_filter_left {α : Type} (p q : α → Bool) (l : List α) :
    (l.filter p).filter q = l.filter (fun a => p a && q a) := by
  induction l with
  | nil => rfl
  | cons a t ih => cases hp : p a <;> cases hq : q a <;>
      simp [List.filter_cons, hp, hq, ih]

theorem eq_singleton_of_length_le_one {α : Type} {l : List α} (h : l.length ≤ 1)
    {x : α} (hx : x ∈ l) : l = [x] := by
  match l, hx with
  | [x'], hx =>
    have : x = x' := by simpa using hx
    simp [this]
  | a :: b :: t, _ => simp at h
  | [], hx => cases hx

theorem stage_filter {α : Type} (b : Bool) (p : α → Bool) (l : List α) :
    (if b then l else l.filter p) = l.filter (fun v => b || p v) := by
  cases b
  · rfl
  · simp [List.filter_true]

/-! ### Claim C1 — marking an already-synced record

A stored record with `synced = 1`, on which `markSynced` is called again.
The updating hook fires on this update as on any other and overwrites the
modification's `synced: 1` with `synced: 0` and stamps a fresh `updatedAt`. -/

def syncedJohn : VoterInfo :=
  { mkVoter 10 1 johnInput with synced := 1, lastSyncedAt := some 15 }

def syncedJohnStore : VoterStore := { nextId := 2, records := [syncedJohn] }

/-- Claim C1: calling mark-synced on a record whose synced flag is already 1
is claimed to leave `synced = 1` and change no field except `lastSyncedAt`.
The code disagrees: the updating hook unconditionally resets `synced` to 0
and refreshes `updatedAt`, so the record ends up unsynced with a changed
`updatedAt` (and `lastSyncedAt` untouched, since this `markSynced` variant
never writes it). -/
theorem markSynced_resets_synced_flag :
    syncedJohn.synced = 1 ∧ syncedJohn.updatedAt = 10 ∧
    (getById 1 (markSynced 30 1 syncedJohnStore)).map
        (fun r => (r.synced, r.updatedAt, r.lastSyncedAt))
      = some (0, 30, some 15) := by
  decide

/-! ### Claim C2 — uniqueness of `voterId` -/

/-- Claim C2, counterexample: the `voterId` index is not declared unique
(no Dexie ampersand marker), so a state holding two records with the same
`voterId` is reachable by two plain `add` calls from the empty store; in it
the query for VTR001 has two candidate matches. -/
theorem voterId_duplicates_reachable :
    ((addVoter 20 johnInput (addVoter 10 johnInput emptyStore)).records.filter
        (fun r => r.voterId == "VTR001")).length = 2 := by
  decide

/-- Claim C2 as amended: the store does not enforce `voterId` uniqueness, and
`getByVoterId` returns the first match in primary-key order; in any store
state where at most one record carries the queried `voterId`, it returns
that unique record, and it returns `none` exactly when no record matches. -/
theorem getByVoterId_unique (v : String) (st : VoterStore)
    (hu : (st.records.filter (fun r => r.voterId == v)).length ≤ 1) :
    (∀ r ∈ st.records, r.voterId = v → getByVoterId v st = some r) ∧
    ((∀ r ∈ st.records, r.voterId ≠ v) → getByVoterId v st = none) := by
  constructor
  · intro r hr hrv
    have hmem : r ∈ st.records.filter (fun r => r.voterId == v) := by
      simp [List.mem_filter, hr, hrv]
    have hsngl := eq_singleton_of_length_le_one hu hmem
    simp [getByVoterId, hsngl]
  · intro h
    have hnil : st.records.filter (fun r => r.voterId == v) = [] := by
      rw [List.filter_eq_nil_iff]
      intro a ha
      simpa using h a ha
    simp [getByVoterId, hnil]

/-- Witness for C2's amended theorem at the two-record example store. -/
theorem getByVoterId_unique_witness :
    ((exampleStore.records.filter (fun r => r.voterId == "VTR002")).length ≤ 1) ∧
    getByVoterId "VTR002" exampleStore = some (mkVoter 20 2 janeInput) :=
  ⟨by decide,
   (getByVoterId_unique "VTR002" exampleStore (by decide)).1
     (mkVoter 20 2 janeInput) (by decide) (by decide)⟩

/-! ### Claim C3 — the creating hook -/

/-- Claim C3: every record inserted by `add` is stored with `fullName` the
trimmed concatenation of first and last name, `synced = 0`, and equal
creation and update timestamps. -/
theorem addVoter_normalizes (now : Nat) (v : VoterInput) (st : VoterStore)
    (r : VoterInfo) (hr : r ∈ (addVoter now v st).records) (hnew : r ∉ st.records) :
    r.fullName = jsTrim (v.firstName ++ " " ++ v.lastName) ∧
    r.synced = 0 ∧ r.createdAt = r.updatedAt := by
  have hmk : r = mkVoter now st.nextId v := by
    have h2 : r ∈ st.records ∨ r = mkVoter now st.nextId v := by
      simpa [addVoter] using hr
    rcases h2 with h | h
    · exact absurd h hnew
    · exact h
  subst hmk
  exact ⟨rfl, rfl, rfl⟩

/-- Witness for C3 at a concrete insertion into the empty store. -/
theorem addVoter_normalizes_witness :
    (mkVoter 10 1 johnInput ∈ (addVoter 10 johnInput emptyStore).records) ∧
    ((mkVoter 10 1 johnInput).fullName
        = jsTrim (johnInput.firstName ++ " " ++ johnInput.lastName) ∧
     (mkVoter 10 1 johnInput).synced = 0 ∧
     (mkVoter 10 1 johnInput).createdAt = (mkVoter 10 1 johnInput).updatedAt) :=
  ⟨by decide,
   addVoter_normalizes 10 johnInput emptyStore (mkVoter 10 1 johnInput)
     (by decide) (by decide)⟩

/-! ### Claim C4 — updates touching a name field -/

/-- Updates through the Dexie primary-key path transform exactly the record
with the given key, by applying the hook-extended modification object. -/
theorem getById_updateVoter (now id : Nat) (ch : VoterChanges) (st : VoterStore) :
    getById id (updateVoter now id ch st)
      = (getById id st).map (fun r => applyChanges (updatingHook now r ch) r) := by
  show ((st.records.map
          (fun r => if r.id == id then applyChanges (updatingHook now r ch) r else r)).filter
            (fun r => r.id == id)).head?
      = ((st.records.filter (fun r => r.id == id)).head?).map
          (fun r => applyChanges (updatingHook now r ch) r)
  generalize st.records = l
  induction l with
  | nil => rfl
  | cons a t ih =>
    simp only [List.map_cons, List.filter_cons]
    cases ha : a.id == id with
    | false => simpa [ha] using ih
    | true =>
      have hgid : ((applyChanges (updatingHook now a ch) a).id == id) = true := ha
      simp [ha, hgid]

def stJohn : VoterStore := addVoter 10 johnInput emptyStore

/-- Claim C4, counterexample: updating John Doe with the change set whose
`firstName` is the empty string.  The claim's merge ("new value where given,
otherwise the existing value") predicts fullName "Doe", but the hook's
JavaScript falsy-fallback merge keeps "John Doe". -/
theorem updating_hook_empty_name_cex :
    (getById 1 (updateVoter 30 1 { firstName := some "" } stJohn)).map
        (fun r => (r.firstName, r.fullName))
      = some ("", "John Doe") ∧
    jsTrim (specMergeGiven (some "") (mkVoter 10 1 johnInput).firstName ++ " " ++
            specMergeGiven none (mkVoter 10 1 johnInput).lastName) = "Doe" ∧
    ("John Doe" : String) ≠ "Doe" := by
  decide

/-- Claim C4 as amended: for an update whose change set includes a name
field, the stored record's `fullName` is the trimmed concatenation of the
merged names, where a given non-empty value wins and a given empty string
falls back to the existing value (JavaScript falsy merge); `synced` is reset
to 0 and `updatedAt` is set to the update time, hence advances when the
clock has. -/
theorem updateVoter_name_merge (now id : Nat) (ch : VoterChanges) (st : VoterStore)
    (old : VoterInfo) (hold : getById id st = some old)
    (hname : (ch.firstName.isSome || ch.lastName.isSome) = true)
    (hclock : old.updatedAt < now) :
    getById id (updateVoter now id ch st)
      = some (applyChanges (updatingHook now old ch) old) ∧
    (applyChanges (updatingHook now old ch) old).fullName
      = jsTrim (jsOrStr ch.firstName old.firstName ++ " " ++
                jsOrStr ch.lastName old.lastName) ∧
    (applyChanges (updatingHook now old ch) old).synced = 0 ∧
    (applyChanges (updatingHook now old ch) old).updatedAt = now ∧
    old.updatedAt < (applyChanges (updatingHook now old ch) old).updatedAt := by
  refine ⟨by rw [getById_updateVoter, hold]; rfl, ?_, ?_, ?_, ?_⟩
  · simp [applyChanges, updatingHook, hname]
  · simp [applyChanges, updatingHook]
  · simp [applyChanges, updatingHook]
  · simpa [applyChanges, updatingHook] using hclock

def chRoe : VoterChanges := { lastName := some "Roe" }

/-- Witness for C4's amended theorem: the spec's worked example — updating
John Doe's last name to "Roe" yields fullName "John Roe" and synced 0. -/
theorem updateVoter_name_merge_witness :
    (getById 1 stJohn = some (mkVoter 10 1 johnInput)) ∧
    (getById 1 (updateVoter 30 1 chRoe stJohn)
        = some (applyChanges (updatingHook 30 (mkVoter 10 1 johnInput) chRoe)
            (mkVoter 10 1 johnInput)) ∧
     (applyChanges (updatingHook 30 (mkVoter 10 1 johnInput) chRoe)
        (mkVoter 10 1 johnInput)).fullName
       = jsTrim (jsOrStr chRoe.firstName (mkVoter 10 1 johnInput).firstName ++ " " ++
                 jsOrStr chRoe.lastName (mkVoter 10 1 johnInput).lastName) ∧
     (applyChanges (updatingHook 30 (mkVoter 10 1 johnInput) chRoe)
        (mkVoter 10 1 johnInput)).synced = 0 ∧
     (applyChanges (updatingHook 30 (mkVoter 10 1 johnInput) chRoe)
        (mkVoter 10 1 johnInput)).updatedAt = 30 ∧
     (mkVoter 10 1 johnInput).updatedAt
       < (applyChanges (updatingHook 30 (mkVoter 10 1 johnInput) chRoe)
            (mkVoter 10 1 johnInput)).updatedAt) ∧
    (applyChanges (updatingHook 30 (mkVoter 10 1 johnInput) chRoe)
       (mkVoter 10 1 johnInput)).fullName = "John Roe" :=
  ⟨by decide,
   updateVoter_name_merge 30 1 chRoe stJohn (mkVoter 10 1 johnInput)
     (by decide) (by decide) (by decide),
   by decide⟩

/-! ### Claim C5 — list filtering -/

/-- Claim C5: the sequential filtering of `VoterList` equals the single
filter by the conjunction of the active (non-empty) criteria; with no
criterion active the output is the input list; and on the spec's two
example records, status "verified" selects exactly VTR002, the query "jane"
selects exactly VTR002, and the query "doe" selects exactly VTR001. -/
theorem filterVoters_conjunction :
    (∀ (q w d s : String) (R : List VoterInfo),
        filterVoters q w d s R = R.filter (matchesAll q w d s)) ∧
    (∀ R : List VoterInfo, filterVoters "" "" "" "" R = R) ∧
    filterVoters "" "" "" "verified" exampleStore.records = [mkVoter 20 2 janeInput] ∧
    filterVoters "jane" "" "" "" exampleStore.records = [mkVoter 20 2 janeInput] ∧
    filterVoters "doe" "" "" "" exampleStore.records = [mkVoter 10 1 johnInput] := by
  refine ⟨?_, ?_, by decide, by decide, by decide⟩
  · intro q w d s R
    show (if s == "" then _ else _) = _
    rw [stage_filter (q == "") (matchesQuery (lowerStr q)) R,
        stage_filter (w == "") _ _, stage_filter (d == "") _ _,
        stage_filter (s == "") _ _,
        filter_filter_left, filter_filter_left, filter_filter_left]
    rfl
  · intro R
    simp [filterVoters]

/-! ### Claim C6 — the sync stub -/

/-- Claim C6: offline, `syncVoters` leaves the store unchanged, and it
iterates exactly the unsynced records; but the claim that each iterated
record is marked synced fails: the updating hook fired by `markSynced`
resets `synced` to 0, so after an online sync with no failures both
processed records (their `updatedAt` shows the sync-time write) still carry
`synced = 0`. -/
theorem syncVoters_leaves_records_unsynced :
    syncVoters false (fun _ => false) 50 exampleStore = exampleStore ∧
    getUnsynced exampleStore = exampleStore.records ∧
    (syncVoters true (fun _ => false) 50 exampleStore).records.map
        (fun r => (r.synced, r.updatedAt))
      = [(0, 50), (0, 50)] := by
  decide

/-! ### Claim C7 — initialisation failure handling -/

/-- Claim C7: an open failure triggers the destructive recovery path — the
store is deleted, recreated and repopulated with the four fixture voters —
while a failure of the fixture bulk-add on the normal path is swallowed,
leaving the (empty) store unchanged and returning normally to the caller. -/
theorem initializeOfflineDB_recovery (rf bf : Bool) (now : Nat) (c : String)
    (st : VoterStore) (hrf : rf = false) (hempty : st.records = []) :
    initializeOfflineDB true rf bf now c st
      = bulkAddVoters now (sampleVoterInputs c) emptyStore ∧
    (initializeOfflineDB true rf bf now c st).records.map (fun r => r.voterId)
      = ["VTR001", "VTR002", "VTR003", "VTR004"] ∧
    initializeOfflineDB false rf true now c st = st := by
  subst hrf
  refine ⟨by simp [initializeOfflineDB, addSampleData], ?_, ?_⟩
  · simp only [initializeOfflineDB, addSampleData, if_true, Bool.false_eq_true, if_false]
    rfl
  · simp [initializeOfflineDB, hempty, addSampleData]

/-- Witness for C7 at concrete oracle values: the open fails, recovery
succeeds, and on the alternative run the fixture bulk-add fails. -/
theorem initializeOfflineDB_recovery_witness :
    (false = false) ∧ (emptyStore.records = []) ∧
    (initializeOfflineDB true false true 100 "DEFAULT_CONSTITUENCY" emptyStore
        = bulkAddVoters 100 (sampleVoterInputs "DEFAULT_CONSTITUENCY") emptyStore ∧
     (initializeOfflineDB true false true 100 "DEFAULT_CONSTITUENCY"
         emptyStore).records.map (fun r => r.voterId)
       = ["VTR001", "VTR002", "VTR003", "VTR004"] ∧
     initializeOfflineDB false false true 100 "DEFAULT_CONSTITUENCY" emptyStore
       = emptyStore) :=
  ⟨rfl, rfl,
   initializeOfflineDB_recovery false true 100 "DEFAULT_CONSTITUENCY" emptyStore
     rfl rfl⟩

/-! ### Claim C8 — state-container actions -/

/-- Refreshing the current-voter pointer touches no other part of the
application state. -/
theorem getCurrentVoterAction_frame (st : AppState) :
    (getCurrentVoterAction st).db = st.db ∧
    (getCurrentVoterAction st).voters = st.voters ∧
    (getCurrentVoterAction st).user = st.user := by
  unfold getCurrentVoterAction
  rcases hu : st.user with _ | uid
  · simp [hu]
  · by_cases h : (uid != 0) = true <;> simp [hu, h]

/-- Claim C8: the container's `updateVoter` action delegates the write to
the store, replaces the cached list with the (new) store contents, and
refreshes the current-voter pointer exactly when the pointer's id equals the
updated id; `addVoter` likewise delegates, then reloads the cache. -/
theorem appStore_delegate_reload_refresh (now id : Nat) (ch : VoterChanges)
    (v : VoterInput) (st : AppState) :
    (updateVoterAction now id ch st).db = updateVoter now id ch st.db ∧
    (updateVoterAction now id ch st).voters = getAll (updateVoter now id ch st.db) ∧
    (updateVoterAction now id ch st).currentVoter =
      (if currentMatches st id then
        (getCurrentVoterAction
          (loadVotersAction { st with db := updateVoter now id ch st.db })).currentVoter
       else st.currentVoter) ∧
    (addVoterAction now v st).db = addVoter now v st.db ∧
    (addVoterAction now v st).voters = getAll (addVoter now v st.db) := by
  have hframe := getCurrentVoterAction_frame
      (loadVotersAction { st with db := updateVoter now id ch st.db })
  by_cases hm : currentMatches st id = true
  · have hst : updateVoterAction now id ch st
        = getCurrentVoterAction
            (loadVotersAction { st with db := updateVoter now id ch st.db }) := by
      unfold updateVoterAction
      exact if_pos hm
    rw [hst]
    exact ⟨hframe.1, hframe.2.1, by rw [if_pos hm], rfl, rfl⟩
  · have hst : updateVoterAction now id ch st
        = loadVotersAction { st with db := updateVoter now id ch st.db } := by
      unfold updateVoterAction
      exact if_neg hm
    rw [hst]
    exact ⟨rfl, rfl, by rw [if_neg hm]; rfl, rfl, rfl⟩

/-! ### Claim C9 — constituency switching leaves a stale binding -/

/-- Claim C9: `setConstituency` closes the module-level store handle and
parks the new constituency's handle on the `window` object; the binding the
`voterOperations` dereference is never reassigned, so subsequent store
operations still target the previous constituency (through a now-closed
handle). -/
theorem setConstituency_stale_binding (c : String) (st : ModuleState) :
    opsTargetConstituency (setConstituency c st) = opsTargetConstituency st ∧
    (setConstituency c st).db.isOpen = false ∧
    (setConstituency c st).windowDb = some { constituency := c, isOpen := true } ∧
    (setConstituency c st).currentConstituency = c :=
  ⟨rfl, rfl, rfl, rfl⟩

/-! ### Claim C10 — ordering of `getAll` -/

/-- Membership in the insertion step of the index-order sort. -/
theorem mem_insertCreated {x a : VoterInfo} :
    ∀ {l : List VoterInfo}, x ∈ insertCreated a l ↔ x = a ∨ x ∈ l := by
  intro l
  induction l with
  | nil => simp [insertCreated]
  | cons b t ih =>
    unfold insertCreated
    by_cases h : leCreated a b = true
    · simp [h]
    · have h' : leCreated a b = false := by simpa using h
      simp only [h', Bool.false_eq_true, if_false, List.mem_cons, ih]
      tauto

/-- A false comparison still bounds timestamps the other way. -/
theorem leCreated_false_le {a b : VoterInfo} (h : leCreated a b = false) :
    b.createdAt ≤ a.createdAt := by
  simp [leCreated] at h
  omega

/-- A true comparison bounds timestamps. -/
theorem leCreated_true_le {a b : VoterInfo} (h : leCreated a b = true) :
    a.createdAt ≤ b.createdAt := by
  simp [leCreated] at h
  rcases h with h | ⟨h, _⟩ <;> omega

/-- Insertion preserves pairwise timestamp order. -/
theorem pairwise_insertCreated {a : VoterInfo} :
    ∀ {l : List VoterInfo},
      l.Pairwise (fun x y => x.createdAt ≤ y.createdAt) →
      (insertCreated a l).Pairwise (fun x y => x.createdAt ≤ y.createdAt) := by
  intro l
  induction l with
  | nil => simp [insertCreated]
  | cons b t ih =>
    intro h
    rcases List.pairwise_cons.1 h with ⟨hbt, ht⟩
    unfold insertCreated
    by_cases hle : leCreated a b = true
    · simp only [hle, if_true]
      refine List.pairwise_cons.2 ⟨?_, h⟩
      intro x hx
      rcases List.mem_cons.1 hx with rfl | hx'
      · exact leCreated_true_le hle
      · exact le_trans (leCreated_true_le hle) (hbt x hx')
    · have hle' : leCreated a b = false := by simpa using hle
      simp only [hle', Bool.false_eq_true, if_false]
      refine List.pairwise_cons.2 ⟨?_, ih ht⟩
      intro x hx
      rcases mem_insertCreated.1 hx with rfl | hx'
      · exact leCreated_false_le hle'
      · exact hbt x hx'

/-- The index-order sort is pairwise ordered by `createdAt`. -/
theorem pairwise_sortCreated :
    ∀ l : List VoterInfo,
      (sortCreated l).Pairwise (fun x y => x.createdAt ≤ y.createdAt) := by
  intro l
  induction l with
  | nil => simp [sortCreated]
  | cons a t ih => exact pairwise_insertCreated ih

/-- Insertion is a permutation of consing. -/
theorem perm_insertCreated (a : VoterInfo) :
    ∀ l : List VoterInfo, (insertCreated a l).Perm (a :: l) := by
  intro l
  induction l with
  | nil => exact List.Perm.refl _
  | cons b t ih =>
    unfold insertCreated
    by_cases h : leCreated a b = true
    · simp only [h, if_true]
      exact List.Perm.refl _
    · have h' : leCreated a b = false := by simpa using h
      simp only [h', Bool.false_eq_true, if_false]
      exact (ih.cons b).trans (List.Perm.swap a b t)

/-- The index-order sort is a permutation of the input. -/
theorem perm_sortCreated : ∀ l : List VoterInfo, (sortCreated l).Perm l := by
  intro l
  induction l with
  | nil => exact List.Perm.refl _
  | cons a t ih => exact (perm_insertCreated a (sortCreated t)).trans (ih.cons a)

/-- Claim C10: `getAll` returns exactly the stored records, ordered by
`createdAt` descending (newest first); the container's `loadVoters` caches
exactly that list. -/
theorem getAll_newest_first (st : VoterStore) (ast : AppState) :
    (getAll st).Pairwise (fun a b => b.createdAt ≤ a.createdAt) ∧
    (getAll st).Perm st.records ∧
    (loadVotersAction ast).voters = getAll ast.db := by
  refine ⟨?_, ?_, rfl⟩
  · exact List.pairwise_reverse.2 (pairwise_sortCreated st.records)
  · exact ((sortCreated st.records).reverse_perm).trans (perm_sortCreated st.records)

end TWAVoter
